import Mathlib

/-!
Verification development for the Coffee-Shop-Profit-Predictor pipeline.

The repository is a three-stage batch pipeline:
* `create_db.py`  — ingestion: loads two CSVs into SQLite tables after column validation;
* `train_regression.py` — training: splits the labeled view, fits a StandardScaler +
  ElasticNet pipeline, emits metrics / diagnostics / feature ranking, persists the pipeline;
* `score_new_sites.py` — scoring: loads the persisted pipeline and predicts one value per
  candidate row, pairing it with the row's coordinates.

Modelling conventions:
* numeric values are exact rationals (`ℚ`); IEEE-754 rounding is abstracted away;
* a tabular view (pandas DataFrame / SQLite table) is a list of named columns together
  with row-major data;
* library fitting routines (`StandardScaler.fit`, `ElasticNet.fit`) and numpy's seeded
  shuffle are deterministic library calls; they are taken as explicit function parameters
  of the embedded stages, while everything the repository itself computes (column
  selection, splitting arithmetic, prediction algebra, ranking, error paths) is concrete;
* raised Python exceptions become `Except` errors, named after the spec's error taxonomy;
  a stage that raises produces no output value, matching "fails without partial output".
-/

namespace Coffee

/-- A tabular view: named columns plus row-major rational entries. -/
structure DataFrame where
  cols : List String
  rows : List (List ℚ)
deriving DecidableEq, Repr

/-- Error taxonomy of the pipeline, named after the spec's error classes.
`ColumnContractError` models the pandas `KeyError` raised by `df[cols]` when some
requested columns are absent; `InsufficientDataError` models sklearn's
`ValueError` from `train_test_split` when a partition would be empty;
`ArtifactNotFoundError` models `joblib.load` on a missing path;
`MissingColumnsError` models the `ValueError` of `create_db._validate_columns`. -/
inductive Err where
  | ColumnContractError (missing : List String)
  | InsufficientDataError
  | ArtifactNotFoundError
  | MissingColumnsError (table : String) (missing : List String)
deriving DecidableEq, Repr

/-- Value of column `c` in row `r` of a frame with columns `cols`
(positional lookup at the column's index, as in the row-major model). -/
def getVal (cols : List String) (r : List ℚ) (c : String) : ℚ :=
  r.getD (cols.indexOf c) 0

/-- `df[cs]`: select columns by name, in the requested order.
pandas raises `KeyError` listing the requested columns that are not in the index. -/
def selectCols (df : DataFrame) (cs : List String) : Except Err DataFrame :=
  let ms := cs.filter (fun c => decide (c ∉ df.cols))
  if ms.isEmpty then .ok ⟨cs, df.rows.map (fun r => cs.map (getVal df.cols r))⟩
  else .error (.ColumnContractError ms)

/-- `df[c]` for a single column (a pandas Series). -/
def selectCol (df : DataFrame) (c : String) : Except Err (List ℚ) :=
  if c ∈ df.cols then .ok (df.rows.map (fun r => getVal df.cols r c))
  else .error (.ColumnContractError [c])

/-- Fitted state of `sklearn.preprocessing.StandardScaler`: per-feature
`mean_` and `scale_`. -/
structure StandardScaler where
  mean : List ℚ
  scale : List ℚ
deriving DecidableEq, Repr

/-- Fitted state of `sklearn.linear_model.ElasticNet`: `coef_` and `intercept_`. -/
structure ElasticNetModel where
  coef : List ℚ
  intercept : ℚ
deriving DecidableEq, Repr

/-- The Fitted Pipeline Artifact: `Pipeline(steps=[("pre", …StandardScaler…), ("model", ElasticNet…)])`
after `fit`; persisted by training via `joblib.dump` and loaded read-only by scoring. -/
structure Pipe where
  scaler : StandardScaler
  model : ElasticNetModel
deriving DecidableEq, Repr

/-- `StandardScaler.transform` on one row: per-feature `(x - mean_) / scale_`. -/
def scalerTransformRow (s : StandardScaler) (r : List ℚ) : List ℚ :=
  (r.zip (s.mean.zip s.scale)).map (fun p => (p.1 - p.2.1) / p.2.2)

def dot (a b : List ℚ) : ℚ :=
  ((a.zip b).map (fun p => p.1 * p.2)).sum

/-- `ElasticNet.predict` on one row: `coef_ · x + intercept_`. -/
def linPredictRow (m : ElasticNetModel) (r : List ℚ) : ℚ :=
  dot m.coef r + m.intercept

/-- `Pipeline.predict` on one row: frozen scaler transform, then the linear model. -/
def pipePredictRow (p : Pipe) (r : List ℚ) : ℚ :=
  linPredictRow p.model (scalerTransformRow p.scaler r)

/-- `Pipeline.fit`: fit the scaler on the training feature matrix only, transform the
training matrix with the freshly fitted scaler, then fit the linear model on the
scaled features against the label. The two library fits are explicit parameters. -/
def pipeFit (scalerFit : List (List ℚ) → StandardScaler)
    (enFit : List (List ℚ) → List ℚ → ElasticNetModel)
    (X : List (List ℚ)) (y : List ℚ) : Pipe :=
  let s := scalerFit X
  ⟨s, enFit (X.map (scalerTransformRow s)) y⟩

/-- `sklearn.metrics.r2_score`: `1 - SS_res / SS_tot`. -/
def r2_score (yTrue yPred : List ℚ) : ℚ :=
  let m := yTrue.sum / (yTrue.length : ℚ)
  let ssRes := ((yTrue.zip yPred).map (fun p => (p.1 - p.2) ^ 2)).sum
  let ssTot := (yTrue.map (fun a => (a - m) ^ 2)).sum
  1 - ssRes / ssTot

/-- `sklearn.metrics.mean_absolute_error`. -/
def mean_absolute_error (yTrue yPred : List ℚ) : ℚ :=
  ((yTrue.zip yPred).map (fun p => |p.1 - p.2|)).sum / (yTrue.length : ℚ)

/-- Insert into a sorted list, before the first element `b` with `le a b`.
This is the stable insertion step: ties keep the earlier element first. -/
def insertLe (le : α → α → Bool) (a : α) : List α → List α
  | [] => [a]
  | b :: l => if le a b then a :: b :: l else b :: insertLe le a l

/-- Stable insertion sort. numpy's `argsort(kind="quicksort")` runs plain insertion
sort on arrays below its small-array threshold (16), so for the 13-feature
importance vector the library sort is literally this stable sort; Python's
`sorted` (Timsort) is stable as well. -/
def isortLe (le : α → α → Bool) : List α → List α
  | [] => []
  | a :: l => insertLe le a (isortLe le l)

end Coffee

namespace Coffee.create_db

/-- Column list of `SCHEMA_TRAIN` (`locations_train`). -/
def SCHEMA_TRAIN_COLS : List String :=
  ["lat", "lon", "foot_traffic", "rent_per_sqm", "competition", "median_income",
   "office_density", "weekend_activity", "events_per_month", "coffee_price",
   "promo_spend", "profit"]

/-- Column list of `SCHEMA_CAND` (`locations_candidates`). -/
def SCHEMA_CAND_COLS : List String :=
  ["lat", "lon", "foot_traffic", "rent_per_sqm", "competition", "median_income",
   "office_density", "weekend_activity", "events_per_month", "coffee_price",
   "promo_spend"]

/-- `REQUIRED_TRAIN` (a Python set; modelled as a duplicate-free list, membership only). -/
def REQUIRED_TRAIN : List String :=
  ["lat", "lon", "foot_traffic", "rent_per_sqm", "competition",
   "median_income", "office_density", "weekend_activity",
   "events_per_month", "coffee_price", "promo_spend", "profit"]

/-- `REQUIRED_CAND = REQUIRED_TRAIN - {"profit"}`. -/
def REQUIRED_CAND : List String := REQUIRED_TRAIN.erase "profit"

/-- `_validate_columns`: `missing = required - set(df.columns)`; on a nonempty
difference, raise a `ValueError` reporting `sorted(missing)` for the table. -/
def validate_columns (cols : List String) (required : List String) (table : String) :
    Except Err Unit :=
  let missing := required.filter (fun c => decide (c ∉ cols))
  if missing.isEmpty then .ok ()
  else .error (.MissingColumnsError table (isortLe (fun a b => decide (a ≤ b)) missing))

/-- The SQLite database: a map from table name to stored table. -/
structure DB where
  tables : List (String × DataFrame)
deriving DecidableEq, Repr

def DB.lookupTable (db : DB) (t : String) : Option DataFrame :=
  db.tables.lookup t

def DB.hasTable (db : DB) (t : String) : Bool :=
  (db.lookupTable t).isSome

/-- `CREATE TABLE IF NOT EXISTS …` — sqlite DDL autocommits, so its effect persists
even when a later statement in the same `with` block raises. -/
def createTableIfNotExists (db : DB) (t : String) (schemaCols : List String) : DB :=
  match db.tables.lookup t with
  | some _ => db
  | none => ⟨db.tables ++ [(t, ⟨schemaCols, []⟩)]⟩

/-- `pandas.DataFrame.to_sql(table, con, if_exists="replace")`: drop any existing
table of that name and store the frame (pandas commits the write itself). -/
def toSqlReplace (db : DB) (t : String) (df : DataFrame) : DB :=
  ⟨db.tables.filter (fun p => decide (p.1 ≠ t)) ++ [(t, df)]⟩

/-- `_load_csv_to_db`: read the CSV (given here as a frame), pick the required set
by table name, validate, then replace the table. -/
def load_csv_to_db (csv : DataFrame) (table : String) (db : DB) : Except Err DB :=
  let required := if table = "locations_train" then REQUIRED_TRAIN else REQUIRED_CAND
  match validate_columns csv.cols required table with
  | .error e => .error e
  | .ok _ => .ok (toSqlReplace db table csv)

/-- `create_db.main` (ingestion invocation): create both schema tables if absent
(autocommitted DDL), then load the train CSV, then the candidates CSV. A raise
stops the sequence; already-committed effects remain, later ones never happen. -/
def main (trainCsv candCsv : DataFrame) (db0 : DB) : Except Err Unit × DB :=
  let db1 := createTableIfNotExists db0 "locations_train" SCHEMA_TRAIN_COLS
  let db2 := createTableIfNotExists db1 "locations_candidates" SCHEMA_CAND_COLS
  match load_csv_to_db trainCsv "locations_train" db2 with
  | .error e => (.error e, db2)
  | .ok db3 =>
    match load_csv_to_db candCsv "locations_candidates" db3 with
    | .error e => (.error e, db3)
    | .ok db4 => (.ok (), db4)

end Coffee.create_db

namespace Coffee.train_regression

/-- `FEATURES` of `train_regression.py`. -/
def FEATURES : List String :=
  ["foot_traffic", "rent_per_sqm", "competition", "median_income", "office_density",
   "weekend_activity", "events_per_month", "coffee_price", "promo_spend",
   "demand_adj", "wknd_traffic", "price_income", "promo_comp_adj"]

/-- `TARGET` of `train_regression.py`. -/
def TARGET : String := "profit"

/-- Size of the held-out partition: sklearn computes `ceil(0.25 * n)` for
`test_size=0.25`. -/
def n_test (n : ℕ) : ℕ := (n + 3) / 4

/-- `train_test_split(X, y, test_size=0.25, random_state=42)`: sklearn first
validates the partition sizes (raising when either partition would be empty),
then draws a seeded permutation of the row indices; the test partition is its
first `n_test` entries, the train partition the rest. The seeded permutation
generator is the explicit `shuffle` parameter, applied at seed 42. -/
def train_test_split (shuffle : ℕ → ℕ → List ℕ) (n : ℕ) :
    Except Err (List ℕ × List ℕ) :=
  if n - n_test n = 0 ∨ n_test n = 0 then .error .InsufficientDataError
  else
    let perm := shuffle 42 n
    .ok (perm.drop (n_test n), perm.take (n_test n))

/-- The feature-importance ranking:
`importance.reindex(importance["importance"].abs().sort_values(ascending=False).index)`.
`Series.sort_values(ascending=False)` delegates to `pandas.core.sorting.nargsort`,
which for descending order reverses the values and positions first, runs the
ascending argsort (numpy insertion sort for the 13-element vector, hence stable),
and reverses the resulting indexer back — a stable *descending* sort, so ties keep
their original (declaration) order. The ranked table keeps each feature's signed
coefficient. -/
def rankImportance (coefs : List ℚ) : List (String × ℚ) :=
  (isortLe (fun a b => decide (|a.2| ≤ |b.2|)) ((FEATURES.zip coefs).reverse)).reverse

/-- Everything a successful training run writes (metrics.json, predictions_train.csv,
feature_importance.csv, model.joblib), plus the split membership as ghost data for
stating partition properties. On an error none of these outputs exist. -/
structure TrainOutput where
  r2 : ℚ
  mae : ℚ
  preds : List (ℚ × ℚ × ℚ × ℚ)
  importance : List (String × ℚ)
  artifact : Pipe
  trainIdx : List ℕ
  testIdx : List ℕ
deriving DecidableEq, Repr

/-- `run_training`, in source order: `X = train_df[FEATURES]`, `y = train_df[TARGET]`,
seeded split, pipeline fit on the training partition, held-out metrics with the
frozen pipeline, full-set diagnostic predictions, lat/lon pairing, importance
ranking, artifact persist. -/
def run_training (shuffle : ℕ → ℕ → List ℕ)
    (scalerFit : List (List ℚ) → StandardScaler)
    (enFit : List (List ℚ) → List ℚ → ElasticNetModel)
    (df : DataFrame) : Except Err TrainOutput :=
  match selectCols df FEATURES with
  | .error e => .error e
  | .ok Xdf =>
  match selectCol df TARGET with
  | .error e => .error e
  | .ok y =>
  match train_test_split shuffle df.rows.length with
  | .error e => .error e
  | .ok (trainIdx, testIdx) =>
    let Xtr := trainIdx.map (fun i => Xdf.rows.getD i [])
    let ytr := trainIdx.map (fun i => y.getD i 0)
    let Xte := testIdx.map (fun i => Xdf.rows.getD i [])
    let yte := testIdx.map (fun i => y.getD i 0)
    let pipe := pipeFit scalerFit enFit Xtr ytr
    let yPredTest := Xte.map (pipePredictRow pipe)
    let yPredAll := Xdf.rows.map (pipePredictRow pipe)
    match selectCols df ["lat", "lon"] with
    | .error e => .error e
    | .ok coords =>
      .ok { r2 := r2_score yte yPredTest
            mae := mean_absolute_error yte yPredTest
            preds := List.zipWith (fun c ap => (c.getD 0 0, c.getD 1 0, ap.1, ap.2))
              coords.rows (y.zip yPredAll)
            importance := rankImportance pipe.model.coef
            artifact := pipe
            trainIdx := trainIdx
            testIdx := testIdx }

end Coffee.train_regression

namespace Coffee.score_new_sites

/-- `FEATURES` of `score_new_sites.py`. -/
def FEATURES : List String :=
  ["foot_traffic", "rent_per_sqm", "competition", "median_income", "office_density",
   "weekend_activity", "events_per_month", "coffee_price", "promo_spend",
   "demand_adj", "wknd_traffic", "price_income", "promo_comp_adj"]

/-- `run_scoring`, in source order: load the artifact (`joblib.load` raises on a
missing path), `X_cand[FEATURES]`, predict with the frozen pipeline,
`X_cand[["lat","lon"]]`, assemble the scored table. Output rows are
`(lat, lon, predicted_profit)`; an error produces no output file. -/
def run_scoring (artifact : Option Pipe) (cand : DataFrame) :
    Except Err (List (ℚ × ℚ × ℚ)) :=
  match artifact with
  | none => .error .ArtifactNotFoundError
  | some pipe =>
  match selectCols cand FEATURES with
  | .error e => .error e
  | .ok Xf =>
    let preds := Xf.rows.map (pipePredictRow pipe)
    match selectCols cand ["lat", "lon"] with
    | .error e => .error e
    | .ok coords =>
      .ok (List.zipWith (fun c p => (c.getD 0 0, c.getD 1 0, p)) coords.rows preds)

end Coffee.score_new_sites

namespace Coffee

theorem insertLe_perm (le : α → α → Bool) (a : α) (l : List α) :
    List.Perm (insertLe le a l) (a :: l) := by
  induction l with
  | nil => exact List.Perm.refl _
  | cons b l ih =>
    cases hab : le a b with
    | true => simp [insertLe, hab]
    | false =>
      simp only [insertLe, hab, Bool.false_eq_true, if_false]
      exact (ih.cons b).trans (List.Perm.swap a b l)

theorem isortLe_perm (le : α → α → Bool) (l : List α) : List.Perm (isortLe le l) l := by
  induction l with
  | nil => exact List.Perm.refl _
  | cons a l ih => exact (insertLe_perm le a (isortLe le l)).trans (ih.cons a)

theorem mem_isortLe (le : α → α → Bool) (l : List α) (x : α) :
    x ∈ isortLe le l ↔ x ∈ l :=
  (isortLe_perm le l).mem_iff

theorem mem_insertLe (le : α → α → Bool) (a : α) (l : List α) (x : α) :
    x ∈ insertLe le a l ↔ x = a ∨ x ∈ l := by
  rw [(insertLe_perm le a l).mem_iff, List.mem_cons]

theorem insertLe_sorted (le : α → α → Bool)
    (htot : ∀ x y, le x y = false → le y x = true)
    (htrans : ∀ x y z, le x y = true → le y z = true → le x z = true)
    (a : α) (l : List α) (hl : l.Pairwise (fun x y => le x y = true)) :
    (insertLe le a l).Pairwise (fun x y => le x y = true) := by
  induction l with
  | nil => simp [insertLe]
  | cons b l ih =>
    rcases List.pairwise_cons.mp hl with ⟨hb, hl'⟩
    cases hab : le a b with
    | true =>
      simp only [insertLe, hab, if_true]
      refine List.pairwise_cons.mpr ⟨?_, hl⟩
      intro x hx
      rcases List.mem_cons.mp hx with rfl | hx
      · exact hab
      · exact htrans a b x hab (hb x hx)
    | false =>
      simp only [insertLe, hab, Bool.false_eq_true, if_false]
      refine List.pairwise_cons.mpr ⟨?_, ih hl'⟩
      intro x hx
      rcases (mem_insertLe le a l x).mp hx with rfl | hx
      · exact htot x b hab
      · exact hb x hx

theorem insertLe_pairwise_strong (le : α → α → Bool) (S : α → α → Prop) (r : α → α → Prop)
    (hfalse : ∀ x y, le x y = false → S y x)
    (htrue : ∀ x y, le x y = true → r x y → S x y)
    (htrans : ∀ x y z, le x y = true → le y z = true → le x z = true)
    (a : α) (l : List α)
    (hsort : l.Pairwise (fun x y => le x y = true))
    (hS : l.Pairwise S)
    (ha : ∀ b ∈ l, r a b) :
    (insertLe le a l).Pairwise S := by
  induction l with
  | nil => simp [insertLe]
  | cons b l ih =>
    rcases List.pairwise_cons.mp hsort with ⟨hble, hsort'⟩
    rcases List.pairwise_cons.mp hS with ⟨hbS, hS'⟩
    cases hab : le a b with
    | true =>
      simp only [insertLe, hab, if_true]
      refine List.pairwise_cons.mpr ⟨?_, hS⟩
      intro x hx
      rcases List.mem_cons.mp hx with rfl | hx
      · exact htrue a x hab (ha x (List.mem_cons_self x _))
      · exact htrue a x (htrans a b x hab (hble x hx)) (ha x (List.mem_cons_of_mem b hx))
    | false =>
      simp only [insertLe, hab, Bool.false_eq_true, if_false]
      refine List.pairwise_cons.mpr ⟨?_, ih hsort' hS' ?_⟩
      · intro x hx
        rcases (mem_insertLe le a l x).mp hx with rfl | hx
        · exact hfalse x b hab
        · exact hbS x hx
      · intro x hx
        exact ha x (List.mem_cons_of_mem b hx)

theorem isortLe_sorted (le : α → α → Bool)
    (htot : ∀ x y, le x y = false → le y x = true)
    (htrans : ∀ x y z, le x y = true → le y z = true → le x z = true)
    (l : List α) :
    (isortLe le l).Pairwise (fun x y => le x y = true) := by
  induction l with
  | nil => simp [isortLe]
  | cons a l ih => exact insertLe_sorted le htot htrans a (isortLe le l) ih

/-- Stability of insertion sort, packaged as the combined order: if the input is
pairwise `r` (original order) then the output is pairwise `S`, where `S` holds
from a strict key decrease or from a key tie resolved by `r`. -/
theorem isortLe_pairwise_strong (le : α → α → Bool) (S : α → α → Prop) (r : α → α → Prop)
    (hfalse : ∀ x y, le x y = false → S y x)
    (htrue : ∀ x y, le x y = true → r x y → S x y)
    (htot : ∀ x y, le x y = false → le y x = true)
    (htrans : ∀ x y z, le x y = true → le y z = true → le x z = true)
    (l : List α) (hr : l.Pairwise r) :
    (isortLe le l).Pairwise S := by
  induction l with
  | nil => simp [isortLe]
  | cons a l ih =>
    rcases List.pairwise_cons.mp hr with ⟨har, hr'⟩
    refine insertLe_pairwise_strong le S r hfalse htrue htrans a (isortLe le l)
      (isortLe_sorted le htot htrans l) (ih hr') ?_
    intro b hb
    exact har b ((mem_isortLe le l b).mp hb)

end Coffee

namespace Coffee

theorem pairwise_indexOf_zip {α β : Type} [DecidableEq α] :
    ∀ (l : List α) (m : List β), l.Nodup →
      (l.zip m).Pairwise (fun p q => l.indexOf p.1 < l.indexOf q.1)
  | [], _, _ => by simp
  | _ :: _, [], _ => by simp
  | a :: l, b :: m, h => by
    rw [List.zip_cons_cons]
    rcases List.nodup_cons.mp h with ⟨ha, hl⟩
    refine List.pairwise_cons.mpr ⟨?_, ?_⟩
    · rintro ⟨q1, q2⟩ hq
      have hq1 : q1 ∈ l := (List.of_mem_zip hq).1
      have hne : a ≠ q1 := fun e => ha (by rw [e]; exact hq1)
      rw [List.indexOf_cons_self, List.indexOf_cons_ne l hne]
      exact Nat.succ_pos _
    · refine List.Pairwise.imp_of_mem ?_ (pairwise_indexOf_zip l m hl)
      intro p q hp hq hlt
      have hp1 : p.1 ∈ l := (List.of_mem_zip (a := p.1) (b := p.2) (by simpa using hp)).1
      have hq1 : q.1 ∈ l := (List.of_mem_zip (a := q.1) (b := q.2) (by simpa using hq)).1
      rw [List.indexOf_cons_ne l (fun e => ha (by rw [e]; exact hp1)),
        List.indexOf_cons_ne l (fun e => ha (by rw [e]; exact hq1))]
      exact Nat.succ_lt_succ hlt

/-- Claim C2: the feature set used by the Training Stage and the one used by the
Scoring Stage are identical as ordered lists — the same 13 feature names in the
same order — so an artifact fitted by training is applied at scoring to columns
selected in the identical order. -/
theorem claim_C2_feature_lists_identical :
    train_regression.FEATURES = score_new_sites.FEATURES ∧
    train_regression.FEATURES.length = 13 :=
  ⟨rfl, rfl⟩

end Coffee

namespace Coffee.train_regression

/-- Declaration position of a feature name in `FEATURES`. -/
def declIdx (f : String) : ℕ := FEATURES.indexOf f

/-- The ranking as the spec's words describe it (stated for comparison with the
source's `rankImportance`): all features sorted descending by absolute
coefficient, with ties between equal absolute coefficients broken by original
feature declaration order — i.e. a stable descending sort of the
declaration-ordered feature list. -/
def specRankImportance (coefs : List ℚ) : List (String × ℚ) :=
  isortLe (fun a b => decide (|b.2| ≤ |a.2|)) (FEATURES.zip coefs)

/-- Strict ranking order: descending by absolute coefficient, ties broken by
original declaration order. `RankOrder p q` says `p` is ranked strictly
before `q`. -/
def RankOrder (p q : String × ℚ) : Prop :=
  |q.2| < |p.2| ∨ (|p.2| = |q.2| ∧ declIdx p.1 < declIdx q.1)

end Coffee.train_regression

namespace Coffee

theorem RankOrder_antisymm : ∀ a b, train_regression.RankOrder a b →
    train_regression.RankOrder b a → a = b := by
  intro a b hab hba
  exfalso
  rcases hab with h1 | ⟨e1, i1⟩ <;> rcases hba with h2 | ⟨e2, i2⟩
  · exact lt_asymm h1 h2
  · exact lt_irrefl _ (e2 ▸ h1)
  · exact lt_irrefl _ (e1 ▸ h2)
  · exact lt_asymm i1 i2

/-- Claim C8: the feature-ranking diagnostic lists every feature exactly once with
its signed coefficient (it is a permutation of `FEATURES` zipped with the fitted
coefficients), sorted in descending order of absolute coefficient, with ties
between equal absolute coefficients broken by the features' original declaration
order; consequently the emitted ranking coincides with the spec-described stable
descending ranking. -/
theorem claim_C8_ranking_descending_ties_declaration (coefs : List ℚ) :
    List.Perm (train_regression.rankImportance coefs)
      (train_regression.FEATURES.zip coefs) ∧
    (train_regression.rankImportance coefs).Pairwise train_regression.RankOrder ∧
    train_regression.rankImportance coefs = train_regression.specRankImportance coefs := by
  have hpw := pairwise_indexOf_zip train_regression.FEATURES coefs (by decide)
  have hperm1 : List.Perm (train_regression.rankImportance coefs)
      (train_regression.FEATURES.zip coefs) :=
    (List.reverse_perm _).trans ((isortLe_perm _ _).trans (List.reverse_perm _))
  have hS1 : (train_regression.rankImportance coefs).Pairwise
      train_regression.RankOrder := by
    show List.Pairwise _ (List.reverse _)
    refine List.pairwise_reverse.mpr ?_
    refine isortLe_pairwise_strong _ _
      (fun p q => train_regression.FEATURES.indexOf q.1 <
        train_regression.FEATURES.indexOf p.1) ?_ ?_ ?_ ?_ _ ?_
    · intro x y hxy
      exact Or.inl (not_le.mp (of_decide_eq_false hxy))
    · intro x y hxy hr
      rcases lt_or_eq_of_le (of_decide_eq_true hxy) with hlt | heq
      · exact Or.inl hlt
      · exact Or.inr ⟨heq.symm, hr⟩
    · intro x y hxy
      exact decide_eq_true (le_of_lt (not_le.mp (of_decide_eq_false hxy)))
    · intro x y z hxy hyz
      exact decide_eq_true (le_trans (of_decide_eq_true hxy) (of_decide_eq_true hyz))
    · exact List.pairwise_reverse.mpr hpw
  have hS2 : (train_regression.specRankImportance coefs).Pairwise
      train_regression.RankOrder := by
    refine isortLe_pairwise_strong _ _
      (fun p q => train_regression.FEATURES.indexOf p.1 <
        train_regression.FEATURES.indexOf q.1) ?_ ?_ ?_ ?_ _ hpw
    · intro x y hxy
      exact Or.inl (not_le.mp (of_decide_eq_false hxy))
    · intro x y hxy hr
      rcases lt_or_eq_of_le (of_decide_eq_true hxy) with hlt | heq
      · exact Or.inl hlt
      · exact Or.inr ⟨heq.symm, hr⟩
    · intro x y hxy
      exact decide_eq_true (le_of_lt (not_le.mp (of_decide_eq_false hxy)))
    · intro x y z hxy hyz
      exact decide_eq_true (le_trans (of_decide_eq_true hyz) (of_decide_eq_true hxy))
  have hperm2 : List.Perm (train_regression.specRankImportance coefs)
      (train_regression.FEATURES.zip coefs) := isortLe_perm _ _
  haveI : IsAntisymm (String × ℚ) train_regression.RankOrder := ⟨RankOrder_antisymm⟩
  exact ⟨hperm1, hS1,
    List.eq_of_perm_of_sorted (hperm1.trans hperm2.symm) hS1 hS2⟩

end Coffee

namespace Coffee

instance {e a : Type} [DecidableEq e] [DecidableEq a] : DecidableEq (Except e a) := fun x y =>
  match x, y with
  | .ok u, .ok v => decidable_of_iff (u = v) (by simp)
  | .ok _, .error _ => isFalse (by simp)
  | .error _, .ok _ => isFalse (by simp)
  | .error u, .error v => decidable_of_iff (u = v) (by simp)

end Coffee

namespace Coffee.create_db

theorem lookup_append_some {β : Type} {l₁ l₂ : List (String × β)} {k : String} {v : β}
    (h : l₁.lookup k = some v) : (l₁ ++ l₂).lookup k = some v := by
  induction l₁ with
  | nil => simp [List.lookup] at h
  | cons p l ih =>
    rcases p with ⟨k', v'⟩
    rw [List.cons_append]
    cases hk : (k == k') with
    | true => simpa [List.lookup, hk] using h
    | false =>
      rw [List.lookup] at h ⊢
      rw [hk] at h ⊢
      exact ih h

theorem lookupTable_createTableIfNotExists_of_some {db : DB} {t t' : String}
    {schemaCols : List String} {df : DataFrame}
    (h : db.lookupTable t = some df) :
    (createTableIfNotExists db t' schemaCols).lookupTable t = some df := by
  rw [createTableIfNotExists]
  cases hl : db.tables.lookup t' with
  | some _ => exact h
  | none => exact lookup_append_some h

/-- A training CSV frame lacking exactly `rent_per_sqm`. -/
def badTrainCsv : DataFrame :=
  ⟨["lat", "lon", "foot_traffic", "competition", "median_income", "office_density",
    "weekend_activity", "events_per_month", "coffee_price", "promo_spend", "profit"], []⟩

/-- An arbitrary candidates CSV frame (never reached in the failing runs). -/
def candCsv0 : DataFrame := ⟨SCHEMA_CAND_COLS, []⟩

end Coffee.create_db

namespace Coffee

/-- Claim C7 fails as stated on a fresh database: ingestion given a CSV lacking
`rent_per_sqm` does fail reporting exactly `["rent_per_sqm"]`, but `main` executes
the `CREATE TABLE IF NOT EXISTS` schema DDL (autocommitted by sqlite) before the
CSV is validated, so the failing run *does* create the (empty) target table that
did not exist beforehand. -/
theorem claim_C7_counterexample :
    (create_db.main create_db.badTrainCsv create_db.candCsv0 ⟨[]⟩).1 =
      .error (.MissingColumnsError "locations_train" ["rent_per_sqm"]) ∧
    (create_db.DB.hasTable ⟨[]⟩ "locations_train") = false ∧
    ((create_db.main create_db.badTrainCsv create_db.candCsv0 ⟨[]⟩).2).hasTable
      "locations_train" = true := by
  refine ⟨by decide, by decide, by decide⟩

/-- Claim C7 (amended): ingestion given a train CSV with missing required columns
fails reporting exactly the full, lexicographically sorted list of the missing
required column names, and does not write the CSV into (or overwrite) the target
table: the only database change is the `CREATE TABLE IF NOT EXISTS` schema DDL
that runs before validation, which may create an *empty* target table on a fresh
database and leaves any existing table untouched. -/
theorem claim_C7_missing_column_reported_sorted_no_overwrite
    (t c : DataFrame) (db0 : create_db.DB)
    (hmiss : create_db.REQUIRED_TRAIN.filter (fun x => decide (x ∉ t.cols)) ≠ []) :
    (create_db.main t c db0).1 = .error (.MissingColumnsError "locations_train"
      (isortLe (fun a b => decide (a ≤ b))
        (create_db.REQUIRED_TRAIN.filter (fun x => decide (x ∉ t.cols))))) ∧
    (isortLe (fun a b => decide (a ≤ b))
      (create_db.REQUIRED_TRAIN.filter (fun x => decide (x ∉ t.cols)))).Pairwise
        (fun a b => a ≤ b) ∧
    (∀ x, x ∈ isortLe (fun a b => decide (a ≤ b))
        (create_db.REQUIRED_TRAIN.filter (fun x => decide (x ∉ t.cols))) ↔
      x ∈ create_db.REQUIRED_TRAIN ∧ x ∉ t.cols) ∧
    (create_db.main t c db0).2 =
      create_db.createTableIfNotExists
        (create_db.createTableIfNotExists db0 "locations_train" create_db.SCHEMA_TRAIN_COLS)
        "locations_candidates" create_db.SCHEMA_CAND_COLS ∧
    (∀ df0, db0.lookupTable "locations_train" = some df0 →
      ((create_db.main t c db0).2).lookupTable "locations_train" = some df0) := by
  have hempty : (create_db.REQUIRED_TRAIN.filter (fun x => decide (x ∉ t.cols))).isEmpty
      = false := by
    cases hf : create_db.REQUIRED_TRAIN.filter (fun x => decide (x ∉ t.cols)) with
    | nil => exact absurd hf hmiss
    | cons a l => rfl
  have hrun : create_db.main t c db0 =
      (.error (.MissingColumnsError "locations_train"
        (isortLe (fun a b => decide (a ≤ b))
          (create_db.REQUIRED_TRAIN.filter (fun x => decide (x ∉ t.cols))))),
       create_db.createTableIfNotExists
        (create_db.createTableIfNotExists db0 "locations_train" create_db.SCHEMA_TRAIN_COLS)
        "locations_candidates" create_db.SCHEMA_CAND_COLS) := by
    rw [create_db.main, create_db.load_csv_to_db, create_db.validate_columns]
    simp only [if_true, hempty, Bool.false_eq_true, if_false, reduceIte]
  refine ⟨by rw [hrun], ?_, ?_, by rw [hrun], ?_⟩
  · refine List.Pairwise.imp (fun h => of_decide_eq_true h) ?_
    refine isortLe_sorted _ ?_ ?_ _
    · intro x y hxy
      exact decide_eq_true (le_of_lt (not_le.mp (of_decide_eq_false hxy)))
    · intro x y z hxy hyz
      exact decide_eq_true (le_trans (of_decide_eq_true hxy) (of_decide_eq_true hyz))
  · intro x
    rw [mem_isortLe, List.mem_filter]
    simp
  · intro df0 h0
    rw [hrun]
    exact create_db.lookupTable_createTableIfNotExists_of_some
      (create_db.lookupTable_createTableIfNotExists_of_some h0)

/-- Witness for the amended C7 at the concrete failing input: the missing-column
report is exactly the sorted singleton `["rent_per_sqm"]`. -/
theorem claim_C7_missing_column_witness :
    (create_db.main create_db.badTrainCsv create_db.candCsv0 ⟨[]⟩).1 =
      .error (.MissingColumnsError "locations_train" ["rent_per_sqm"]) := by
  have h := claim_C7_missing_column_reported_sorted_no_overwrite
    create_db.badTrainCsv create_db.candCsv0 ⟨[]⟩ (by decide)
  exact h.1.trans (by decide)
end Coffee

namespace Coffee

theorem selectCols_eq_ok (df : DataFrame) (cs : List String)
    (h : ∀ c ∈ cs, c ∈ df.cols) :
    selectCols df cs = .ok ⟨cs, df.rows.map (fun r => cs.map (getVal df.cols r))⟩ := by
  have hf : cs.filter (fun c => decide (c ∉ df.cols)) = [] := by
    rw [List.filter_eq_nil_iff]
    intro a ha
    simp only [decide_eq_true_eq, not_not]
    exact h a ha
  rw [selectCols, hf]
  rfl

theorem selectCols_eq_error (df : DataFrame) (cs : List String)
    (h : cs.filter (fun c => decide (c ∉ df.cols)) ≠ []) :
    selectCols df cs =
      .error (.ColumnContractError (cs.filter (fun c => decide (c ∉ df.cols)))) := by
  rw [selectCols]
  cases hf : cs.filter (fun c => decide (c ∉ df.cols)) with
  | nil => exact absurd hf h
  | cons a l => rfl

/-- Normal form of a successful scoring run: with the expected feature columns and
`lat`/`lon` present, `run_scoring` returns one `(lat, lon, prediction)` record per
candidate row, in input row order. -/
theorem run_scoring_ok_form (p : Pipe) (cand : DataFrame)
    (hfeat : ∀ c ∈ score_new_sites.FEATURES, c ∈ cand.cols)
    (hlat : "lat" ∈ cand.cols) (hlon : "lon" ∈ cand.cols) :
    score_new_sites.run_scoring (some p) cand = .ok (cand.rows.map (fun r =>
      (getVal cand.cols r "lat", getVal cand.cols r "lon",
       pipePredictRow p (score_new_sites.FEATURES.map (getVal cand.cols r))))) := by
  have h1 := selectCols_eq_ok cand score_new_sites.FEATURES hfeat
  have h2 : selectCols cand ["lat", "lon"] =
      .ok ⟨["lat", "lon"], cand.rows.map (fun r => ["lat", "lon"].map (getVal cand.cols r))⟩ :=
    selectCols_eq_ok cand ["lat", "lon"] (by
      intro c hc
      rcases List.mem_cons.mp hc with rfl | hc
      · exact hlat
      · rcases List.mem_cons.mp hc with rfl | hc
        · exact hlon
        · cases hc)
  rw [score_new_sites.run_scoring, h1, h2]
  dsimp only
  rw [List.map_map, List.zipWith_map, List.zipWith_same]
  rfl

/-- Inversion of a successful scoring run: success implies the feature and
coordinate columns were present and the output has the normal form. -/
theorem run_scoring_ok_inv {p : Pipe} {cand : DataFrame} {out : List (ℚ × ℚ × ℚ)}
    (hok : score_new_sites.run_scoring (some p) cand = .ok out) :
    (∀ c ∈ score_new_sites.FEATURES, c ∈ cand.cols) ∧
    "lat" ∈ cand.cols ∧ "lon" ∈ cand.cols ∧
    out = cand.rows.map (fun r =>
      (getVal cand.cols r "lat", getVal cand.cols r "lon",
       pipePredictRow p (score_new_sites.FEATURES.map (getVal cand.cols r)))) := by
  by_cases hfeat : ∀ c ∈ score_new_sites.FEATURES, c ∈ cand.cols
  · by_cases hlat : "lat" ∈ cand.cols
    · by_cases hlon : "lon" ∈ cand.cols
      · refine ⟨hfeat, hlat, hlon, ?_⟩
        have := (run_scoring_ok_form p cand hfeat hlat hlon).symm.trans hok
        exact (Except.ok.inj this).symm
      · exfalso
        have h2 : selectCols cand ["lat", "lon"] = .error (.ColumnContractError
            (["lat", "lon"].filter (fun c => decide (c ∉ cand.cols)))) := by
          refine selectCols_eq_error cand ["lat", "lon"] ?_
          intro hf
          have := List.filter_eq_nil_iff.mp hf "lon" (by simp)
          simp [hlon] at this
        have h1 := selectCols_eq_ok cand score_new_sites.FEATURES hfeat
        rw [score_new_sites.run_scoring, h1, h2] at hok
        dsimp only at hok
        exact Except.noConfusion hok
    · exfalso
      have h2 : selectCols cand ["lat", "lon"] = .error (.ColumnContractError
          (["lat", "lon"].filter (fun c => decide (c ∉ cand.cols)))) := by
        refine selectCols_eq_error cand ["lat", "lon"] ?_
        intro hf
        have := List.filter_eq_nil_iff.mp hf "lat" (by simp)
        simp [hlat] at this
      have h1 := selectCols_eq_ok cand score_new_sites.FEATURES hfeat
      rw [score_new_sites.run_scoring, h1, h2] at hok
      dsimp only at hok
      exact Except.noConfusion hok
  · exfalso
    have hne : score_new_sites.FEATURES.filter (fun c => decide (c ∉ cand.cols)) ≠ [] := by
      intro hf
      refine hfeat ?_
      intro c hc
      have := List.filter_eq_nil_iff.mp hf c hc
      simpa using this
    have h1 := selectCols_eq_error cand score_new_sites.FEATURES hne
    rw [score_new_sites.run_scoring, h1] at hok
    dsimp only at hok
    exact Except.noConfusion hok

end Coffee

namespace Coffee.score_new_sites

/-- A candidate frame carrying all 13 features, the coordinates, and one extra
column the training feature set does not mention, with a single all-zero row. -/
def extraColCand : DataFrame :=
  ⟨FEATURES ++ ["lat", "lon", "extra_col"],
   [[0, 0, 0, 0, 0, 0, 0, 0, 0, 0, 0, 0, 0, 0, 0, 0]]⟩

/-- The same candidate data with the columns in a different order and without the
extra column. -/
def reordCand : DataFrame :=
  ⟨["lat", "lon"] ++ FEATURES, [[0, 0, 0, 0, 0, 0, 0, 0, 0, 0, 0, 0, 0, 0, 0]]⟩

/-- A concrete Fitted Pipeline Artifact for witnesses: identity scaling, all
coefficients 1, intercept 5. -/
def pipe0 : Pipe :=
  ⟨⟨[0, 0, 0, 0, 0, 0, 0, 0, 0, 0, 0, 0, 0], [1, 1, 1, 1, 1, 1, 1, 1, 1, 1, 1, 1, 1]⟩,
   ⟨[1, 1, 1, 1, 1, 1, 1, 1, 1, 1, 1, 1, 1], 5⟩⟩

/-- A candidate frame missing every feature column. -/
def noFeatCand : DataFrame := ⟨["lat", "lon"], []⟩

/-- Evaluation of the scored table on `extraColCand` with `pipe0`: the single
all-zero row scores to the record `(0, 0, 5)`. -/
theorem extraColCand_scored :
    extraColCand.rows.map (fun r =>
      (getVal extraColCand.cols r "lat", getVal extraColCand.cols r "lon",
       pipePredictRow pipe0 (FEATURES.map (getVal extraColCand.cols r)))) =
    [(0, 0, 5)] := by
  have h1 : getVal extraColCand.cols [0, 0, 0, 0, 0, 0, 0, 0, 0, 0, 0, 0, 0, 0, 0, 0]
      "lat" = 0 := by decide
  have h2 : getVal extraColCand.cols [0, 0, 0, 0, 0, 0, 0, 0, 0, 0, 0, 0, 0, 0, 0, 0]
      "lon" = 0 := by decide
  have h3 : FEATURES.map (getVal extraColCand.cols
      [0, 0, 0, 0, 0, 0, 0, 0, 0, 0, 0, 0, 0, 0, 0, 0]) =
      [0, 0, 0, 0, 0, 0, 0, 0, 0, 0, 0, 0, 0] := by decide
  show [(_, _, _)] = _
  rw [h1, h2, h3]
  norm_num [pipe0, pipePredictRow, linPredictRow, scalerTransformRow, dot]

end Coffee.score_new_sites

namespace Coffee

/-- Claim C1 fails as stated: the candidate view `extraColCand` has feature columns
that do not exactly match the expected feature set — by name and by set, it carries
the surplus `extra_col` — yet `run_scoring` succeeds and produces a prediction
file. The code enforces only that the expected features are a *subset* of the
candidate columns (`X_cand[FEATURES]`), not exact set equality. -/
theorem claim_C1_counterexample :
    ("extra_col" ∈ score_new_sites.extraColCand.cols ∧
     "extra_col" ∉ score_new_sites.FEATURES ∧
     "extra_col" ≠ "lat" ∧ "extra_col" ≠ "lon") ∧
    score_new_sites.run_scoring (some score_new_sites.pipe0) score_new_sites.extraColCand =
      .ok [(0, 0, 5)] := by
  refine ⟨by decide, ?_⟩
  exact (run_scoring_ok_form score_new_sites.pipe0 score_new_sites.extraColCand
    (by decide) (by decide) (by decide)).trans
    (congrArg Except.ok score_new_sites.extraColCand_scored)

/-- Claim C1 (amended): scoring fails with `ArtifactNotFoundError` when the
persisted artifact is absent; it fails with `ColumnContractError` — naming exactly
the expected feature columns absent from the candidate view — when some expected
feature name is missing (surplus columns are tolerated: only the missing direction
of the set comparison is enforced); and in either failure case no prediction
output is produced. -/
theorem claim_C1_scoring_failure_modes (artifact : Option Pipe) (cand : DataFrame) :
    (artifact = none →
      score_new_sites.run_scoring artifact cand = .error .ArtifactNotFoundError) ∧
    (∀ p, artifact = some p →
      score_new_sites.FEATURES.filter (fun c => decide (c ∉ cand.cols)) ≠ [] →
      score_new_sites.run_scoring artifact cand = .error (.ColumnContractError
        (score_new_sites.FEATURES.filter (fun c => decide (c ∉ cand.cols))))) ∧
    (∀ e out, score_new_sites.run_scoring artifact cand = .error e →
      score_new_sites.run_scoring artifact cand ≠ .ok out) := by
  refine ⟨?_, ?_, ?_⟩
  · intro h
    subst h
    rfl
  · intro p hp hne
    subst hp
    rw [score_new_sites.run_scoring, selectCols_eq_error cand _ hne]
  · intro e out he hout
    exact Except.noConfusion (he.symm.trans hout)

/-- Witness for the amended C1: a missing artifact yields `ArtifactNotFoundError`,
and a candidate view missing all feature columns yields a `ColumnContractError`
naming all 13 expected features. -/
theorem claim_C1_scoring_failure_modes_witness :
    score_new_sites.run_scoring none score_new_sites.extraColCand =
      .error .ArtifactNotFoundError ∧
    score_new_sites.run_scoring (some score_new_sites.pipe0) score_new_sites.noFeatCand =
      .error (.ColumnContractError score_new_sites.FEATURES) := by
  constructor
  · exact (claim_C1_scoring_failure_modes none score_new_sites.extraColCand).1 rfl
  · exact ((claim_C1_scoring_failure_modes (some score_new_sites.pipe0)
      score_new_sites.noFeatCand).2.1 score_new_sites.pipe0 rfl (by decide)).trans (by decide)

/-- Claim C4: every successful scoring run emits exactly one Prediction Record per
candidate row, in input row order, each predicted scalar paired with the lat/lon
coordinates of the input row it came from. -/
theorem claim_C4_order_preserving (p : Pipe) (cand : DataFrame)
    (out : List (ℚ × ℚ × ℚ))
    (hok : score_new_sites.run_scoring (some p) cand = .ok out) :
    out.length = cand.rows.length ∧
    ∀ i, i < cand.rows.length →
      out.getD i (0, 0, 0) =
        (getVal cand.cols (cand.rows.getD i []) "lat",
         getVal cand.cols (cand.rows.getD i []) "lon",
         pipePredictRow p
           (score_new_sites.FEATURES.map (getVal cand.cols (cand.rows.getD i [])))) := by
  obtain ⟨hfeat, hlat, hlon, hout⟩ := run_scoring_ok_inv hok
  subst hout
  constructor
  · simp
  · intro i hi
    rw [List.getD_eq_getElem _ _ (by simpa using hi), List.getElem_map,
      List.getD_eq_getElem _ _ hi]

/-- Witness for C4 at a concrete candidate table with one row. -/
theorem claim_C4_order_preserving_witness :
    [((0:ℚ), (0:ℚ), (5:ℚ))].length = score_new_sites.extraColCand.rows.length ∧
    [((0:ℚ), (0:ℚ), (5:ℚ))].getD 0 (0, 0, 0) =
      (getVal score_new_sites.extraColCand.cols
        (score_new_sites.extraColCand.rows.getD 0 []) "lat",
       getVal score_new_sites.extraColCand.cols
        (score_new_sites.extraColCand.rows.getD 0 []) "lon",
       pipePredictRow score_new_sites.pipe0
         (score_new_sites.FEATURES.map (getVal score_new_sites.extraColCand.cols
           (score_new_sites.extraColCand.rows.getD 0 [])))) := by
  have hok : score_new_sites.run_scoring (some score_new_sites.pipe0)
      score_new_sites.extraColCand = .ok [((0:ℚ), (0:ℚ), (5:ℚ))] :=
    (run_scoring_ok_form score_new_sites.pipe0 score_new_sites.extraColCand
      (by decide) (by decide) (by decide)).trans
      (congrArg Except.ok score_new_sites.extraColCand_scored)
  have h := claim_C4_order_preserving score_new_sites.pipe0 score_new_sites.extraColCand
    [((0:ℚ), (0:ℚ), (5:ℚ))] hok
  exact ⟨h.1, h.2 0 (by decide)⟩

/-- Claim C10 (implicit): scoring succeeds for any candidate view whose columns
include the 13 expected feature names plus `lat` and `lon`, and its output depends
only on those columns — two candidate views that agree row-wise on the feature and
coordinate columns produce identical prediction records, regardless of any extra
columns or column ordering. -/
theorem claim_C10_scoring_depends_only_on_contract_columns
    (p : Pipe) (cand cand2 : DataFrame)
    (hfeat : ∀ c ∈ score_new_sites.FEATURES, c ∈ cand.cols)
    (hlat : "lat" ∈ cand.cols) (hlon : "lon" ∈ cand.cols)
    (hfeat2 : ∀ c ∈ score_new_sites.FEATURES, c ∈ cand2.cols)
    (hlat2 : "lat" ∈ cand2.cols) (hlon2 : "lon" ∈ cand2.cols)
    (hlen : cand.rows.length = cand2.rows.length)
    (hagree : ∀ i, i < cand.rows.length →
      ∀ c ∈ score_new_sites.FEATURES ++ ["lat", "lon"],
        getVal cand.cols (cand.rows.getD i []) c =
        getVal cand2.cols (cand2.rows.getD i []) c) :
    score_new_sites.run_scoring (some p) cand = .ok (cand.rows.map (fun r =>
      (getVal cand.cols r "lat", getVal cand.cols r "lon",
       pipePredictRow p (score_new_sites.FEATURES.map (getVal cand.cols r))))) ∧
    score_new_sites.run_scoring (some p) cand =
      score_new_sites.run_scoring (some p) cand2 := by
  have e1 := run_scoring_ok_form p cand hfeat hlat hlon
  have e2 := run_scoring_ok_form p cand2 hfeat2 hlat2 hlon2
  refine ⟨e1, ?_⟩
  rw [e1, e2]
  congr 1
  refine List.ext_getElem (by simpa using hlen) ?_
  intro i h1 h2
  have hi : i < cand.rows.length := by simpa using h1
  have hi2 : i < cand2.rows.length := by simpa using h2
  simp only [List.getElem_map]
  have hg : ∀ c ∈ score_new_sites.FEATURES ++ ["lat", "lon"],
      getVal cand.cols cand.rows[i] c = getVal cand2.cols cand2.rows[i] c := by
    intro c hc
    have := hagree i hi c hc
    rwa [List.getD_eq_getElem _ _ hi, List.getD_eq_getElem _ _ hi2] at this
  have hla := hg "lat" (by simp)
  have hlo := hg "lon" (by simp)
  have hfm : score_new_sites.FEATURES.map (getVal cand.cols cand.rows[i]) =
      score_new_sites.FEATURES.map (getVal cand2.cols cand2.rows[i]) :=
    List.map_congr_left (fun c hc => hg c (List.mem_append_left _ hc))
  rw [hla, hlo, hfm]

/-- Witness for C10: the all-zero candidate table with an extra column and the
reordered table without it produce the same single prediction record. -/
theorem claim_C10_witness :
    score_new_sites.run_scoring (some score_new_sites.pipe0) score_new_sites.extraColCand =
      .ok [((0:ℚ), (0:ℚ), (5:ℚ))] ∧
    score_new_sites.run_scoring (some score_new_sites.pipe0) score_new_sites.extraColCand =
      score_new_sites.run_scoring (some score_new_sites.pipe0) score_new_sites.reordCand := by
  have h := claim_C10_scoring_depends_only_on_contract_columns
    score_new_sites.pipe0 score_new_sites.extraColCand score_new_sites.reordCand
    (by decide) (by decide) (by decide) (by decide) (by decide) (by decide)
    (by decide) (by decide)
  exact ⟨h.1.trans (congrArg Except.ok score_new_sites.extraColCand_scored), h.2⟩

end Coffee

namespace Coffee.train_regression

/-- `X = train_df[FEATURES]` as a total row-wise selection (the frame's feature
matrix, rows in view order). -/
def featMatrix (df : DataFrame) : List (List ℚ) :=
  df.rows.map (fun r => FEATURES.map (getVal df.cols r))

/-- `y = train_df[TARGET]` as a total selection. -/
def labels (df : DataFrame) : List ℚ :=
  df.rows.map (fun r => getVal df.cols r TARGET)

/-- Training-partition row indices: the seeded permutation minus its test prefix. -/
def trainIdxOf (shuffle : ℕ → ℕ → List ℕ) (n : ℕ) : List ℕ :=
  (shuffle 42 n).drop (n_test n)

/-- Held-out-partition row indices: the first `n_test n` entries of the seeded
permutation. -/
def testIdxOf (shuffle : ℕ → ℕ → List ℕ) (n : ℕ) : List ℕ :=
  (shuffle 42 n).take (n_test n)

/-- Feature rows of the training partition. -/
def Xtrain (shuffle : ℕ → ℕ → List ℕ) (df : DataFrame) : List (List ℚ) :=
  (trainIdxOf shuffle df.rows.length).map (fun i => (featMatrix df).getD i [])

/-- Labels of the training partition. -/
def ytrain (shuffle : ℕ → ℕ → List ℕ) (df : DataFrame) : List ℚ :=
  (trainIdxOf shuffle df.rows.length).map (fun i => (labels df).getD i 0)

/-- Feature rows of the held-out evaluation partition. -/
def Xtest (shuffle : ℕ → ℕ → List ℕ) (df : DataFrame) : List (List ℚ) :=
  (testIdxOf shuffle df.rows.length).map (fun i => (featMatrix df).getD i [])

/-- Labels of the held-out evaluation partition. -/
def ytest (shuffle : ℕ → ℕ → List ℕ) (df : DataFrame) : List ℚ :=
  (testIdxOf shuffle df.rows.length).map (fun i => (labels df).getD i 0)

/-- The output record of a successful training run in normal form. -/
def trainOutputNF (shuffle : ℕ → ℕ → List ℕ) (scalerFit : List (List ℚ) → StandardScaler)
    (enFit : List (List ℚ) → List ℚ → ElasticNetModel) (df : DataFrame) : TrainOutput :=
  let pipe := pipeFit scalerFit enFit (Xtrain shuffle df) (ytrain shuffle df)
  { r2 := r2_score (ytest shuffle df) ((Xtest shuffle df).map (pipePredictRow pipe))
    mae := mean_absolute_error (ytest shuffle df)
      ((Xtest shuffle df).map (pipePredictRow pipe))
    preds := df.rows.map (fun r =>
      (getVal df.cols r "lat", getVal df.cols r "lon", getVal df.cols r TARGET,
       pipePredictRow pipe (FEATURES.map (getVal df.cols r))))
    importance := rankImportance pipe.model.coef
    artifact := pipe
    trainIdx := trainIdxOf shuffle df.rows.length
    testIdx := testIdxOf shuffle df.rows.length }

theorem preds_zip_collapse (latlon : List ℚ → List ℚ) (tgt pred : List ℚ → ℚ)
    (feat : List ℚ → List ℚ) (rows : List (List ℚ)) :
    List.zipWith (fun c ap => (c.getD 0 0, c.getD 1 0, ap.1, ap.2))
      (rows.map latlon)
      ((rows.map tgt).zip ((rows.map feat).map pred)) =
    rows.map (fun r => ((latlon r).getD 0 0, (latlon r).getD 1 0, tgt r, pred (feat r))) := by
  induction rows with
  | nil => rfl
  | cons r rows ih =>
    simp only [List.map_cons, List.zip_cons_cons, List.zipWith_cons_cons, ih]

theorem train_test_split_eq_error (shuffle : ℕ → ℕ → List ℕ) (n : ℕ) (h : n < 2) :
    train_test_split shuffle n = .error .InsufficientDataError := by
  match n, h with
  | 0, _ => rfl
  | 1, _ => rfl

theorem train_test_split_eq_ok (shuffle : ℕ → ℕ → List ℕ) (n : ℕ) (h : 2 ≤ n) :
    train_test_split shuffle n =
      .ok ((shuffle 42 n).drop (n_test n), (shuffle 42 n).take (n_test n)) := by
  have hc : ¬(n - n_test n = 0 ∨ n_test n = 0) := by
    rw [n_test]
    omega
  rw [train_test_split, if_neg hc]

theorem selectCol_eq_ok (df : DataFrame) (c : String) (h : c ∈ df.cols) :
    selectCol df c = .ok (df.rows.map (fun r => getVal df.cols r c)) := by
  rw [selectCol, if_pos h]

/-- Normal form of a successful training run: with the feature, target and
coordinate columns present and at least two rows, `run_training` returns
`trainOutputNF`. -/
theorem run_training_ok_form (shuffle : ℕ → ℕ → List ℕ)
    (scalerFit : List (List ℚ) → StandardScaler)
    (enFit : List (List ℚ) → List ℚ → ElasticNetModel) (df : DataFrame)
    (hfeat : ∀ c ∈ FEATURES, c ∈ df.cols) (htgt : TARGET ∈ df.cols)
    (hlat : "lat" ∈ df.cols) (hlon : "lon" ∈ df.cols)
    (hn : 2 ≤ df.rows.length) :
    run_training shuffle scalerFit enFit df =
      .ok (trainOutputNF shuffle scalerFit enFit df) := by
  have h1 := selectCols_eq_ok df FEATURES hfeat
  have hy := selectCol_eq_ok df TARGET htgt
  have h2 := train_test_split_eq_ok shuffle df.rows.length hn
  have h3 : selectCols df ["lat", "lon"] =
      .ok ⟨["lat", "lon"], df.rows.map (fun r => ["lat", "lon"].map (getVal df.cols r))⟩ :=
    selectCols_eq_ok df ["lat", "lon"] (by
      intro c hc
      rcases List.mem_cons.mp hc with rfl | hc
      · exact hlat
      · rcases List.mem_cons.mp hc with rfl | hc
        · exact hlon
        · cases hc)
  rw [run_training, h1, hy, h2, h3]
  dsimp only
  rw [preds_zip_collapse]
  rfl

end Coffee.train_regression

namespace Coffee.train_regression

/-- Seeded-permutation stand-in for witnesses: the identity permutation. -/
def sh0 : ℕ → ℕ → List ℕ := fun _ n => List.range n

/-- Concrete scaler fit for witnesses: identity scaling. -/
def scalerFit0 : List (List ℚ) → StandardScaler :=
  fun _ => ⟨[0, 0, 0, 0, 0, 0, 0, 0, 0, 0, 0, 0, 0], [1, 1, 1, 1, 1, 1, 1, 1, 1, 1, 1, 1, 1]⟩

/-- Concrete ElasticNet fit for witnesses: all coefficients 1, intercept 5. -/
def enFit0 : List (List ℚ) → List ℚ → ElasticNetModel :=
  fun _ _ => ⟨[1, 1, 1, 1, 1, 1, 1, 1, 1, 1, 1, 1, 1], 5⟩

/-- A well-formed labeled view with two all-zero records. -/
def trainDf2 : DataFrame :=
  ⟨FEATURES ++ ["profit", "lat", "lon"],
   [[0, 0, 0, 0, 0, 0, 0, 0, 0, 0, 0, 0, 0, 0, 0, 0],
    [0, 0, 0, 0, 0, 0, 0, 0, 0, 0, 0, 0, 0, 0, 0, 0]]⟩

/-- A well-formed labeled view with a single record. -/
def trainDf1 : DataFrame :=
  ⟨FEATURES ++ ["profit", "lat", "lon"],
   [[0, 0, 0, 0, 0, 0, 0, 0, 0, 0, 0, 0, 0, 0, 0, 0]]⟩

end Coffee.train_regression

namespace Coffee

/-- Claim C6: training on a labeled view with fewer than two records (empty or
singleton) fails with `InsufficientDataError`; the split validation raises before
any output write, so no training output exists (in the model, the error value
carries no `TrainOutput`). -/
theorem claim_C6_insufficient_data (shuffle : ℕ → ℕ → List ℕ)
    (scalerFit : List (List ℚ) → StandardScaler)
    (enFit : List (List ℚ) → List ℚ → ElasticNetModel) (df : DataFrame)
    (hfeat : ∀ c ∈ train_regression.FEATURES, c ∈ df.cols)
    (htgt : train_regression.TARGET ∈ df.cols)
    (hn : df.rows.length < 2) :
    train_regression.run_training shuffle scalerFit enFit df =
      .error .InsufficientDataError ∧
    ∀ o, train_regression.run_training shuffle scalerFit enFit df ≠ .ok o := by
  have h1 := selectCols_eq_ok df train_regression.FEATURES hfeat
  have hy := train_regression.selectCol_eq_ok df train_regression.TARGET htgt
  have h2 := train_regression.train_test_split_eq_error shuffle df.rows.length hn
  have herr : train_regression.run_training shuffle scalerFit enFit df =
      .error .InsufficientDataError := by
    rw [train_regression.run_training, h1, hy, h2]
  exact ⟨herr, fun o ho => Except.noConfusion (herr.symm.trans ho)⟩

/-- Witness for C6 at a concrete singleton labeled view. -/
theorem claim_C6_insufficient_data_witness :
    train_regression.run_training train_regression.sh0 train_regression.scalerFit0
      train_regression.enFit0 train_regression.trainDf1 =
      .error .InsufficientDataError :=
  (claim_C6_insufficient_data train_regression.sh0 train_regression.scalerFit0
    train_regression.enFit0 train_regression.trainDf1
    (by decide) (by decide) (by decide)).1

/-- Claim C3: training is deterministic — two runs on the same input are
bit-identical (in particular the r2/mae metrics and the partition membership
agree) — and the realised partition is the fixed-seed 75/25 split: the held-out
partition is the first `ceil(n/4)` entries of the seed-42 permutation, the
training partition the remaining `n - ceil(n/4)`. -/
theorem claim_C3_training_deterministic (shuffle : ℕ → ℕ → List ℕ)
    (scalerFit : List (List ℚ) → StandardScaler)
    (enFit : List (List ℚ) → List ℚ → ElasticNetModel) (df : DataFrame)
    (hfeat : ∀ c ∈ train_regression.FEATURES, c ∈ df.cols)
    (htgt : train_regression.TARGET ∈ df.cols)
    (hlat : "lat" ∈ df.cols) (hlon : "lon" ∈ df.cols)
    (hn : 2 ≤ df.rows.length)
    (hlen : (shuffle 42 df.rows.length).length = df.rows.length) :
    train_regression.run_training shuffle scalerFit enFit df =
      train_regression.run_training shuffle scalerFit enFit df ∧
    (∀ o o2, train_regression.run_training shuffle scalerFit enFit df = .ok o →
      train_regression.run_training shuffle scalerFit enFit df = .ok o2 →
      o.trainIdx = o2.trainIdx ∧ o.testIdx = o2.testIdx ∧ o.r2 = o2.r2 ∧ o.mae = o2.mae) ∧
    (∀ o, train_regression.run_training shuffle scalerFit enFit df = .ok o →
      o.testIdx = (shuffle 42 df.rows.length).take (train_regression.n_test df.rows.length) ∧
      o.trainIdx = (shuffle 42 df.rows.length).drop (train_regression.n_test df.rows.length) ∧
      o.testIdx.length = train_regression.n_test df.rows.length ∧
      o.trainIdx.length = df.rows.length - train_regression.n_test df.rows.length ∧
      df.rows.length ≤ 4 * train_regression.n_test df.rows.length ∧
      4 * train_regression.n_test df.rows.length < df.rows.length + 4) := by
  have hok := train_regression.run_training_ok_form shuffle scalerFit enFit df
    hfeat htgt hlat hlon hn
  refine ⟨rfl, ?_, ?_⟩
  · intro o o2 h h2
    have : o = o2 := Except.ok.inj (h.symm.trans h2)
    subst this
    exact ⟨rfl, rfl, rfl, rfl⟩
  · intro o h
    have heq : train_regression.trainOutputNF shuffle scalerFit enFit df = o :=
      Except.ok.inj (hok.symm.trans h)
    subst heq
    refine ⟨rfl, rfl, ?_, ?_, ?_, ?_⟩
    · show (List.take _ _).length = _
      rw [List.length_take, hlen]
      rw [train_regression.n_test]
      omega
    · show (List.drop _ _).length = _
      rw [List.length_drop, hlen]
    · rw [train_regression.n_test]
      omega
    · rw [train_regression.n_test]
      omega

/-- Witness for C3 at a concrete two-record labeled view: the held-out partition
has one member and the training partition one member. -/
theorem claim_C3_training_deterministic_witness :
    (train_regression.trainOutputNF train_regression.sh0 train_regression.scalerFit0
      train_regression.enFit0 train_regression.trainDf2).testIdx.length = 1 ∧
    (train_regression.trainOutputNF train_regression.sh0 train_regression.scalerFit0
      train_regression.enFit0 train_regression.trainDf2).trainIdx.length = 1 := by
  have h := claim_C3_training_deterministic train_regression.sh0 train_regression.scalerFit0
    train_regression.enFit0 train_regression.trainDf2
    (by decide) (by decide) (by decide) (by decide) (by decide) (by decide)
  have hok := train_regression.run_training_ok_form train_regression.sh0
    train_regression.scalerFit0 train_regression.enFit0 train_regression.trainDf2
    (by decide) (by decide) (by decide) (by decide) (by decide)
  obtain ⟨-, -, h3⟩ := h
  obtain ⟨-, -, hl1, hl2, -, -⟩ := h3 _ hok
  exact ⟨hl1.trans (by decide), hl2.trans (by decide)⟩

/-- Claim C5: round-trip consistency — the persisted artifact, applied (by the
scoring-side `Pipeline.predict`) to the exact feature rows of training's full-set
diagnostic pass, reproduces precisely the predicted values recorded in the
diagnostic predictions output (exact equality in the rational model, hence within
any floating-point tolerance). -/
theorem claim_C5_round_trip (shuffle : ℕ → ℕ → List ℕ)
    (scalerFit : List (List ℚ) → StandardScaler)
    (enFit : List (List ℚ) → List ℚ → ElasticNetModel) (df : DataFrame)
    (hfeat : ∀ c ∈ train_regression.FEATURES, c ∈ df.cols)
    (htgt : train_regression.TARGET ∈ df.cols)
    (hlat : "lat" ∈ df.cols) (hlon : "lon" ∈ df.cols)
    (hn : 2 ≤ df.rows.length) :
    ∀ o, train_regression.run_training shuffle scalerFit enFit df = .ok o →
      (train_regression.featMatrix df).map (pipePredictRow o.artifact) =
        o.preds.map (fun t => t.2.2.2) := by
  have hok := train_regression.run_training_ok_form shuffle scalerFit enFit df
    hfeat htgt hlat hlon hn
  intro o h
  have heq : train_regression.trainOutputNF shuffle scalerFit enFit df = o :=
    Except.ok.inj (hok.symm.trans h)
  subst heq
  show (df.rows.map _).map _ = (df.rows.map _).map _
  rw [List.map_map, List.map_map]
  rfl

/-- Witness for C5 at the concrete two-record view. -/
theorem claim_C5_round_trip_witness :
    (train_regression.featMatrix train_regression.trainDf2).map
      (pipePredictRow (train_regression.trainOutputNF train_regression.sh0
        train_regression.scalerFit0 train_regression.enFit0
        train_regression.trainDf2).artifact) =
    (train_regression.trainOutputNF train_regression.sh0 train_regression.scalerFit0
      train_regression.enFit0 train_regression.trainDf2).preds.map (fun t => t.2.2.2) :=
  claim_C5_round_trip train_regression.sh0 train_regression.scalerFit0
    train_regression.enFit0 train_regression.trainDf2
    (by decide) (by decide) (by decide) (by decide) (by decide) _
    (train_regression.run_training_ok_form train_regression.sh0 train_regression.scalerFit0
      train_regression.enFit0 train_regression.trainDf2
      (by decide) (by decide) (by decide) (by decide) (by decide))

/-- Claim C9: no leakage — the fitted scaler is a function of the training
partition's feature rows only, the persisted artifact is a function of the
training partition only (so the evaluation partition and the diagnostic pass
never influence the fitted parameters: any input with the same training
partition yields the same artifact), and the held-out metrics are computed by
applying the frozen artifact to the evaluation partition. -/
theorem claim_C9_leakage_free (shuffle : ℕ → ℕ → List ℕ)
    (scalerFit : List (List ℚ) → StandardScaler)
    (enFit : List (List ℚ) → List ℚ → ElasticNetModel) (df : DataFrame)
    (hfeat : ∀ c ∈ train_regression.FEATURES, c ∈ df.cols)
    (htgt : train_regression.TARGET ∈ df.cols)
    (hlat : "lat" ∈ df.cols) (hlon : "lon" ∈ df.cols)
    (hn : 2 ≤ df.rows.length) :
    ∀ o, train_regression.run_training shuffle scalerFit enFit df = .ok o →
      o.artifact.scaler = scalerFit (train_regression.Xtrain shuffle df) ∧
      o.artifact = pipeFit scalerFit enFit (train_regression.Xtrain shuffle df)
        (train_regression.ytrain shuffle df) ∧
      o.r2 = r2_score (train_regression.ytest shuffle df)
        ((train_regression.Xtest shuffle df).map (pipePredictRow o.artifact)) ∧
      o.mae = mean_absolute_error (train_regression.ytest shuffle df)
        ((train_regression.Xtest shuffle df).map (pipePredictRow o.artifact)) ∧
      (∀ df2 o2, (∀ c ∈ train_regression.FEATURES, c ∈ df2.cols) →
        train_regression.TARGET ∈ df2.cols → "lat" ∈ df2.cols → "lon" ∈ df2.cols →
        2 ≤ df2.rows.length →
        train_regression.run_training shuffle scalerFit enFit df2 = .ok o2 →
        train_regression.Xtrain shuffle df2 = train_regression.Xtrain shuffle df →
        train_regression.ytrain shuffle df2 = train_regression.ytrain shuffle df →
        o2.artifact = o.artifact) := by
  have hok := train_regression.run_training_ok_form shuffle scalerFit enFit df
    hfeat htgt hlat hlon hn
  intro o h
  have heq : train_regression.trainOutputNF shuffle scalerFit enFit df = o :=
    Except.ok.inj (hok.symm.trans h)
  subst heq
  refine ⟨rfl, rfl, rfl, rfl, ?_⟩
  intro df2 o2 hfeat2 htgt2 hlat2 hlon2 hn2 h2 hX hY
  have hok2 := train_regression.run_training_ok_form shuffle scalerFit enFit df2
    hfeat2 htgt2 hlat2 hlon2 hn2
  have heq2 : train_regression.trainOutputNF shuffle scalerFit enFit df2 = o2 :=
    Except.ok.inj (hok2.symm.trans h2)
  subst heq2
  show pipeFit scalerFit enFit (train_regression.Xtrain shuffle df2)
    (train_regression.ytrain shuffle df2) = _
  rw [hX, hY]
  rfl

/-- Witness for C9 at the concrete two-record view: the artifact's scaler is the
scaler fit of the training partition's feature rows alone, and the artifact is the
pipeline fit of the training partition alone. -/
theorem claim_C9_leakage_free_witness :
    (train_regression.trainOutputNF train_regression.sh0 train_regression.scalerFit0
      train_regression.enFit0 train_regression.trainDf2).artifact.scaler =
      train_regression.scalerFit0 (train_regression.Xtrain train_regression.sh0
        train_regression.trainDf2) ∧
    (train_regression.trainOutputNF train_regression.sh0 train_regression.scalerFit0
      train_regression.enFit0 train_regression.trainDf2).artifact =
      pipeFit train_regression.scalerFit0 train_regression.enFit0
        (train_regression.Xtrain train_regression.sh0 train_regression.trainDf2)
        (train_regression.ytrain train_regression.sh0 train_regression.trainDf2) := by
  have h := claim_C9_leakage_free train_regression.sh0 train_regression.scalerFit0
    train_regression.enFit0 train_regression.trainDf2
    (by decide) (by decide) (by decide) (by decide) (by decide) _
    (train_regression.run_training_ok_form train_regression.sh0 train_regression.scalerFit0
      train_regression.enFit0 train_regression.trainDf2
      (by decide) (by decide) (by decide) (by decide) (by decide))
  exact ⟨h.1, h.2.1⟩

end Coffee
